import Mathlib

/-!
Verification of the cert-deployer repository (src/python_tools/deploy.py)
against its natural-language specification. The Python program is shallowly
embedded: the deployment pipeline of `ContractDeployer` becomes a pure
function over an environment that records the outcome of each external
interaction (chain node, record file, ipfs daemon, naming contracts), and
the persisted record file becomes an association list from contract name to
its abi/address record.
-/

namespace CertDeployer

/-- A persisted contract record: the abi and address pair that deploy.py
line 143 builds as data = dict with fields abi and address. Both fields are
always present (a record value is never partial). -/
structure ContractRecord where
  abi : String
  address : String
deriving DecidableEq, Repr

/-- The parsed content of the record file contr_info.json: a JSON object at
top level, modelled as an association list from contract name to record,
keeping insertion order as a Python dict does. -/
abbrev Store := List (String × ContractRecord)

/-- Lookup of a key in the store, as dict indexing. -/
def storeLookup : Store → String → Option ContractRecord
  | [], _ => none
  | (k', v) :: rest, k => if k' = k then some v else storeLookup rest k

/-- Python dict assignment contr_info[k] = v: replaces the value at an
existing key in place, appends a new key at the end. -/
def storeInsert : Store → String → ContractRecord → Store
  | [], k, v => [(k, v)]
  | (k', v') :: rest, k, v =>
      if k' = k then (k, v) :: rest else (k', v') :: storeInsert rest k v

/-- State of the record file as the read at deploy.py line 138 sees it:
absent (open in mode r raises FileNotFoundError), present but not valid
JSON (json.loads raises JSONDecodeError), or parsed to a store. -/
inductive FileRead where
  | absent
  | corrupt
  | parsed (s : Store)
deriving DecidableEq, Repr

/-- The errors that terminate a run of deploy.py: exit on insufficient
balance, and the uncaught Python exceptions of each later stage. -/
inductive DeployError where
  | insufficientBalance
  | compileError
  | broadcastError
  | receiptError
  | fileNotFoundError
  | jsonDecodeError
  | ensError
deriving DecidableEq, Repr

/-- The external calls deploy.py issues, in program order: chain-node reads,
the broadcast and receipt wait, ipfs add and shutdown, and the naming
registry or resolver interactions of _assign_ens. -/
inductive ChainCall where
  | readGasPrice
  | readBalance
  | estimateGas
  | readNonce
  | sendRawTransaction
  | waitForReceipt
  | ipfsAdd (path : String)
  | ipfsShutdown
  | ensTransact (fn : String)
  | ensCall (fn : String)
deriving DecidableEq, Repr

/-- Whether a call mutates chain state: only the raw-transaction broadcast
and the naming transactions do; every other call is a read or local ipfs
housekeeping. -/
def ChainCall.isMutating : ChainCall → Bool
  | .sendRawTransaction => true
  | .ensTransact _ => true
  | _ => false

/-- Whether a call goes to the naming registry or resolver contracts. -/
def ChainCall.isEns : ChainCall → Bool
  | .ensTransact _ => true
  | .ensCall _ => true
  | _ => false

/-- The fixed worst-case gas ceiling of check_balance, deploy.py line 48. -/
def balance_gas_limit : Nat := 600000

/-- Models check_balance (deploy.py lines 44-52): the run exits exactly when
gas_balance is below gas_limit times gas_price. -/
def check_balance_aborts (gasPrice gasBalance : Nat) : Bool :=
  decide (gasBalance < balance_gas_limit * gasPrice)

/-- The two chain-node calls check_balance issues, lines 49-50: the gas
price read and the balance read. -/
def check_balance_calls : List ChainCall :=
  [ChainCall.readGasPrice, ChainCall.readBalance]

/-- Models the gas field of the construction transaction, deploy.py lines
125-128: the estimateGas result times 2. -/
def construct_txn_gas (estimated_gas : Nat) : Nat :=
  estimated_gas * 2

/-- The record-file path tools.get_contr_info_path() returns. The helper
lives in onchaining_tools.path_tools outside src; the concrete string is
irrelevant to every claim, only its fixed identity matters. -/
def get_contr_info_path : String := "contr_info.json"

/-- Models deploy.py lines 142-144: data = the abi/address pair and
contr_info with key "blockcertsonchaining" set to data. The key is
hard-coded; the update takes no contract-name parameter. -/
def updateRecord (contr_info : Store) (data : ContractRecord) : Store :=
  storeInsert contr_info "blockcertsonchaining" data

/-- Models the whole record-store update of deploy.py lines 138-147: read
the record file (open in mode r raises on an absent file, json.loads raises
on unparseable content, neither exception is caught), set the hard-coded
key, and rewrite the file with the merged mapping. -/
def recordStoreUpdate (file : FileRead) (abi address : String) :
    Except DeployError Store :=
  match file with
  | FileRead.absent => Except.error DeployError.fileNotFoundError
  | FileRead.corrupt => Except.error DeployError.jsonDecodeError
  | FileRead.parsed contr_info =>
      Except.ok (updateRecord contr_info (ContractRecord.mk abi address))

/-- The observable sequence of record-file states during the write at
deploy.py lines 146-147: open(path, mode w+) truncates the file in place,
leaving an empty file (empty content is not valid JSON, hence corrupt),
and json.dump then writes the new serialized mapping. No temporary file
and no atomic rename is involved. -/
def record_file_write_states (old : FileRead) (newStore : Store) :
    List FileRead :=
  [old, FileRead.corrupt, FileRead.parsed newStore]

/-- Models deploy.py lines 82-86: self.ipfs_hash starts as the empty
no-content sentinel; only when the ipfs client is connected is the file
added and the resulting hash stored. Returns the hash value and the ipfs
calls attempted. -/
def publish (client : Bool) (path : String) (addResult : String) :
    String × List ChainCall :=
  if client then (addResult, [ChainCall.ipfsAdd path]) else ("", [])

/-- The naming calls _assign_ens issues in order (deploy.py lines 152-192):
four registry or resolver transactions, the conditional setContenthash when
the ipfs client is connected, then the read-backs. -/
def assign_ens_plan (clientAvailable : Bool) : List ChainCall :=
  [ChainCall.ensTransact "setSubnodeOwner", ChainCall.ensTransact "setResolver",
   ChainCall.ensTransact "setAddr", ChainCall.ensTransact "setName"]
  ++ (if clientAvailable then [ChainCall.ensTransact "setContenthash"] else [])
  ++ [ChainCall.ensCall "addr", ChainCall.ensCall "name"]
  ++ (if clientAvailable then [ChainCall.ensCall "contenthash"] else [])

/-- Models _assign_ens with a failure oracle. Modelled from the spec: the
transact and call helpers of ContractConnection (onchaining_tools.connections,
not under src) are receipt-confirmed on-chain interactions each of which can
fail; a failure raises a Python exception, and _assign_ens contains no
handler, so the sequence stops at the first failing call. failIndex names
the first failing call in the plan, none when all succeed. Returns the
calls attempted and whether the sequence completed. -/
def assign_ens (clientAvailable : Bool) (failIndex : Option Nat) :
    List ChainCall × Bool :=
  match failIndex with
  | none => (assign_ens_plan clientAvailable, true)
  | some i =>
      if i < (assign_ens_plan clientAvailable).length then
        ((assign_ens_plan clientAvailable).take (i + 1), false)
      else
        (assign_ens_plan clientAvailable, true)

/-- Outcome of _update_ens_content: the calls it issued, whether control
reached the closing block at deploy.py lines 89-91 (ipfs shutdown and client
close), and whether an exception escaped it. -/
structure EnsOutcome where
  calls : List ChainCall
  cleanupReached : Bool
  fatal : Bool
deriving DecidableEq, Repr

/-- Models _update_ens_content (deploy.py lines 81-91): publish the record
file to ipfs when connected, run _assign_ens exactly when the current chain
is ropsten, then shut the ipfs daemon down when connected. There is no
try-except around _assign_ens: a naming exception propagates and the
closing block never runs. -/
def update_ens_content (chain : String) (client : Bool) (addResult : String)
    (ensFailIndex : Option Nat) : EnsOutcome :=
  let pub := publish client get_contr_info_path addResult
  if chain = "ropsten" then
    let ens := assign_ens client ensFailIndex
    if ens.2 then
      { calls := pub.2 ++ ens.1
          ++ (if client then [ChainCall.ipfsShutdown] else []),
        cleanupReached := true, fatal := false }
    else
      { calls := pub.2 ++ ens.1, cleanupReached := false, fatal := true }
  else
    { calls := pub.2 ++ (if client then [ChainCall.ipfsShutdown] else []),
      cleanupReached := true, fatal := false }

/-- One run's environment: the outcomes of every external interaction the
pipeline depends on. -/
structure Env where
  gasPrice : Nat
  balance : Nat
  ipfsConnects : Bool
  compileOk : Bool
  abi : String
  estimated_gas : Nat
  broadcastOk : Bool
  receiptOk : Bool
  contractAddress : String
  recordFile : FileRead
  ipfsHash : String
  chain : String
  ensFailIndex : Option Nat
deriving DecidableEq, Repr

/-- Observable outcome of one run: the final record-file state, the external
calls issued in order, the store content passed to json.dump when the write
executed, whether the ipfs closing block was reached, and the error that
terminated the run, if any. -/
structure RunOutcome where
  finalFile : FileRead
  calls : List ChainCall
  written : Option Store
  cleanupReached : Bool
  fatal : Option DeployError
deriving DecidableEq, Repr

/-- Models one full run, ContractDeployer().do_deploy(): check_balance from
the constructor, then _open_ipfs_connection (all failures caught, the client
is simply unavailable), _compile_contract, _deploy (estimate, nonce read,
broadcast, receipt wait, record-file read-merge-write) and
_update_ens_content, each stage aborting the run on its uncaught error. -/
def do_deploy (e : Env) : RunOutcome :=
  if check_balance_aborts e.gasPrice e.balance then
    { finalFile := e.recordFile, calls := check_balance_calls,
      written := none, cleanupReached := false,
      fatal := some DeployError.insufficientBalance }
  else if e.compileOk = false then
    { finalFile := e.recordFile, calls := check_balance_calls,
      written := none, cleanupReached := false,
      fatal := some DeployError.compileError }
  else if e.broadcastOk = false then
    { finalFile := e.recordFile,
      calls := check_balance_calls
        ++ [ChainCall.estimateGas, ChainCall.readNonce,
            ChainCall.sendRawTransaction],
      written := none, cleanupReached := false,
      fatal := some DeployError.broadcastError }
  else if e.receiptOk = false then
    { finalFile := e.recordFile,
      calls := check_balance_calls
        ++ [ChainCall.estimateGas, ChainCall.readNonce,
            ChainCall.sendRawTransaction, ChainCall.waitForReceipt],
      written := none, cleanupReached := false,
      fatal := some DeployError.receiptError }
  else
    match recordStoreUpdate e.recordFile e.abi e.contractAddress with
    | Except.error err =>
        { finalFile := e.recordFile,
          calls := check_balance_calls
            ++ [ChainCall.estimateGas, ChainCall.readNonce,
                ChainCall.sendRawTransaction, ChainCall.waitForReceipt],
          written := none, cleanupReached := false, fatal := some err }
    | Except.ok newStore =>
        let ens := update_ens_content e.chain e.ipfsConnects e.ipfsHash
          e.ensFailIndex
        { finalFile := FileRead.parsed newStore,
          calls := check_balance_calls
            ++ [ChainCall.estimateGas, ChainCall.readNonce,
                ChainCall.sendRawTransaction, ChainCall.waitForReceipt]
            ++ ens.calls,
          written := some newStore, cleanupReached := ens.cleanupReached,
          fatal := if ens.fatal then some DeployError.ensError else none }

/-- A concrete run whose balance is below the required worst case. -/
def envInsufficient : Env :=
  { gasPrice := 2, balance := 5, ipfsConnects := false, compileOk := true,
    abi := "a", estimated_gas := 100, broadcastOk := true, receiptOk := true,
    contractAddress := "0xF", recordFile := FileRead.parsed [], ipfsHash := "",
    chain := "mainnet", ensFailIndex := none }

/-- A concrete run that completes: sufficient balance, compilation,
broadcast and receipt succeed, the record file parses, no ipfs client, a
non-test network. -/
def envComplete : Env :=
  { gasPrice := 1, balance := 10000000, ipfsConnects := false,
    compileOk := true, abi := "abi1", estimated_gas := 100,
    broadcastOk := true, receiptOk := true, contractAddress := "0xABC",
    recordFile := FileRead.parsed [("keep", ContractRecord.mk "p" "0x9")],
    ipfsHash := "", chain := "mainnet", ensFailIndex := none }

/-! ## Helper lemmas on the store operations -/

theorem storeLookup_storeInsert_self (s : Store) (k : String) (v : ContractRecord) :
    storeLookup (storeInsert s k v) k = some v := by
  induction s with
  | nil => simp [storeInsert, storeLookup]
  | cons hd tl ih =>
      obtain ⟨k', v'⟩ := hd
      by_cases h : k' = k
      · simp [storeInsert, storeLookup, h]
      · simp [storeInsert, storeLookup, h, ih]

theorem storeLookup_storeInsert_ne (s : Store) (key k : String) (v : ContractRecord)
    (h : k ≠ key) : storeLookup (storeInsert s key v) k = storeLookup s k := by
  induction s with
  | nil => simp [storeInsert, storeLookup, Ne.symm h]
  | cons hd tl ih =>
      obtain ⟨k', v'⟩ := hd
      by_cases hk : k' = key
      · subst hk
        simp [storeInsert, storeLookup, Ne.symm h]
      · simp [storeInsert, storeLookup, hk, ih]

theorem storeInsert_storeInsert (s : Store) (k : String) (v1 v2 : ContractRecord) :
    storeInsert (storeInsert s k v1) k v2 = storeInsert s k v2 := by
  induction s with
  | nil => simp [storeInsert]
  | cons hd tl ih =>
      obtain ⟨k', v'⟩ := hd
      by_cases h : k' = k
      · simp [storeInsert, h]
      · simp [storeInsert, h, ih]

theorem recordStoreUpdate_error_inv (file : FileRead) (abi addr : String)
    (err : DeployError) (h : recordStoreUpdate file abi addr = Except.error err) :
    err = DeployError.fileNotFoundError ∨ err = DeployError.jsonDecodeError := by
  cases file with
  | absent =>
      simp [recordStoreUpdate] at h
      exact Or.inl h.symm
  | corrupt =>
      simp [recordStoreUpdate] at h
      exact Or.inr h.symm
  | parsed s => simp [recordStoreUpdate] at h

theorem recordStoreUpdate_ok_inv (file : FileRead) (abi addr : String) (s : Store)
    (h : recordStoreUpdate file abi addr = Except.ok s) :
    ∃ old, file = FileRead.parsed old ∧
      s = updateRecord old (ContractRecord.mk abi addr) := by
  cases file with
  | absent => simp [recordStoreUpdate] at h
  | corrupt => simp [recordStoreUpdate] at h
  | parsed old =>
      refine ⟨old, rfl, ?_⟩
      simpa [recordStoreUpdate] using h.symm

/-! ## Claim theorems -/

/-- Claim C6: the contract-creation transaction gas limit is exactly twice
the dry-run estimate, for every estimate; in particular an estimate of
100000 yields a limit of 200000. -/
theorem C6_gas_limit_is_double (estimated_gas : Nat) :
    construct_txn_gas estimated_gas = 2 * estimated_gas ∧
    construct_txn_gas 100000 = 200000 := by
  constructor
  · simp [construct_txn_gas, Nat.mul_comm]
  · rfl

/-- Claim C9: publication returns the empty no-content handle with no ipfs
call whenever the connection failed, for every path; only with a connected
client is the file added and its content identifier returned. -/
theorem C9_publish_unavailable (path addResult : String) :
    publish false path addResult = ("", []) ∧
    publish true path addResult = (addResult, [ChainCall.ipfsAdd path]) := by
  exact ⟨rfl, rfl⟩

/-- Claim C2, counterexample: the record update takes no contract-name
parameter, so two successive updates with distinct records both write the
single hard-coded key and the second overwrites the first; starting from the
empty store the final store has exactly one entry holding only the second
record, not the two accumulated entries the claim describes. -/
theorem C2_two_updates_counterexample :
    updateRecord (updateRecord [] (ContractRecord.mk "abiA" "0xA"))
        (ContractRecord.mk "abiB" "0xB") =
      [("blockcertsonchaining", ContractRecord.mk "abiB" "0xB")] ∧
    (updateRecord (updateRecord [] (ContractRecord.mk "abiA" "0xA"))
        (ContractRecord.mk "abiB" "0xB")).length = 1 := by
  exact ⟨rfl, rfl⟩

/-- Claim C2, amended: the update is a pure merge at the single hard-coded
key "blockcertsonchaining": every unrelated key keeps its prior value, and
applying the same update twice yields the same store as applying it once. -/
theorem C2_update_merge_fixed_key (s : Store) (r : ContractRecord) (k : String)
    (hk : k ≠ "blockcertsonchaining") :
    storeLookup (updateRecord s r) k = storeLookup s k ∧
    updateRecord (updateRecord s r) r = updateRecord s r := by
  exact ⟨storeLookup_storeInsert_ne s "blockcertsonchaining" k r hk,
    storeInsert_storeInsert s "blockcertsonchaining" r r⟩

/-- Claim C2, witness for the amended theorem at a concrete store. -/
theorem C2_update_merge_fixed_key_witness :
    storeLookup (updateRecord [("other", ContractRecord.mk "o" "0x0")]
        (ContractRecord.mk "a" "0x1")) "other" =
      some (ContractRecord.mk "o" "0x0") ∧
    updateRecord (updateRecord [("other", ContractRecord.mk "o" "0x0")]
        (ContractRecord.mk "a" "0x1")) (ContractRecord.mk "a" "0x1") =
      updateRecord [("other", ContractRecord.mk "o" "0x0")]
        (ContractRecord.mk "a" "0x1") := by
  have h := C2_update_merge_fixed_key [("other", ContractRecord.mk "o" "0x0")]
    (ContractRecord.mk "a" "0x1") "other" (by decide)
  exact ⟨h.1.trans (by rfl), h.2⟩

/-- Claim C10: every run updates the persisted record under the single
hard-coded key "blockcertsonchaining" (the update takes no name parameter),
leaves every unrelated key unchanged, and a second run overwrites the entry
of the first. -/
theorem C10_update_fixed_key (s : Store) (r1 r2 : ContractRecord) (k : String)
    (hk : k ≠ "blockcertsonchaining") :
    storeLookup (updateRecord s r1) "blockcertsonchaining" = some r1 ∧
    storeLookup (updateRecord s r1) k = storeLookup s k ∧
    updateRecord (updateRecord s r1) r2 = updateRecord s r2 := by
  exact ⟨storeLookup_storeInsert_self s "blockcertsonchaining" r1,
    storeLookup_storeInsert_ne s "blockcertsonchaining" k r1 hk,
    storeInsert_storeInsert s "blockcertsonchaining" r1 r2⟩

/-- Claim C10, witness at a concrete store with an unrelated key. -/
theorem C10_update_fixed_key_witness :
    storeLookup (updateRecord [("keep", ContractRecord.mk "p" "0x9")]
        (ContractRecord.mk "a1" "0x1")) "blockcertsonchaining" =
      some (ContractRecord.mk "a1" "0x1") ∧
    storeLookup (updateRecord [("keep", ContractRecord.mk "p" "0x9")]
        (ContractRecord.mk "a1" "0x1")) "keep" =
      some (ContractRecord.mk "p" "0x9") ∧
    updateRecord (updateRecord [("keep", ContractRecord.mk "p" "0x9")]
        (ContractRecord.mk "a1" "0x1")) (ContractRecord.mk "a2" "0x2") =
      updateRecord [("keep", ContractRecord.mk "p" "0x9")]
        (ContractRecord.mk "a2" "0x2") := by
  have h := C10_update_fixed_key [("keep", ContractRecord.mk "p" "0x9")]
    (ContractRecord.mk "a1" "0x1") (ContractRecord.mk "a2" "0x2") "keep" (by decide)
  exact ⟨h.1, h.2.1.trans (by rfl), h.2.2⟩

/-- Claim C5, counterexample: on an absent record file the update raises
FileNotFoundError and on an unparseable one it raises JSONDecodeError, at
the concrete abi "a" and address "0x1"; the update does not complete with
the file treated as an empty mapping, which would yield the merged store. -/
theorem C5_read_failure_counterexample :
    recordStoreUpdate FileRead.absent "a" "0x1" =
      Except.error DeployError.fileNotFoundError ∧
    recordStoreUpdate FileRead.corrupt "a" "0x1" =
      Except.error DeployError.jsonDecodeError ∧
    recordStoreUpdate FileRead.absent "a" "0x1" ≠
      Except.ok (updateRecord [] (ContractRecord.mk "a" "0x1")) := by
  refine ⟨rfl, rfl, by simp [recordStoreUpdate]⟩

/-- Claim C5, amended: reading the record file propagates an uncaught error
on an absent or unparseable file (the update fails rather than treating the
file as empty); only a file that parses completes the merge. -/
theorem C5_read_failure_propagates (s : Store) (abi addr : String) :
    recordStoreUpdate FileRead.absent abi addr =
      Except.error DeployError.fileNotFoundError ∧
    recordStoreUpdate FileRead.corrupt abi addr =
      Except.error DeployError.jsonDecodeError ∧
    recordStoreUpdate (FileRead.parsed s) abi addr =
      Except.ok (updateRecord s (ContractRecord.mk abi addr)) := by
  exact ⟨rfl, rfl, rfl⟩

/-- Claim C4, counterexample: the write is an in-place truncate-then-write,
so between the truncation and the completed dump the file is observably in
the truncated state, which is neither the concrete old content nor the
concrete new content. -/
theorem C4_write_counterexample :
    (record_file_write_states
        (FileRead.parsed [("k", ContractRecord.mk "a" "0x1")])
        [("blockcertsonchaining", ContractRecord.mk "b" "0x2")])[1]? =
      some FileRead.corrupt ∧
    FileRead.corrupt ≠ FileRead.parsed [("k", ContractRecord.mk "a" "0x1")] ∧
    FileRead.corrupt ≠
      FileRead.parsed [("blockcertsonchaining", ContractRecord.mk "b" "0x2")] := by
  refine ⟨rfl, by simp, by simp⟩

/-- Claim C4, amended: the rewrite at lines 146-147 opens the file in mode
w+, truncating it in place before json.dump writes the new mapping; for
every old and new store the observable states are old content, then a
truncated (unparseable) file that equals no parsed store, then the new
content — not a write-to-temp-then-replace. -/
theorem C4_truncate_then_write (old newStore : Store) :
    record_file_write_states (FileRead.parsed old) newStore =
      [FileRead.parsed old, FileRead.corrupt, FileRead.parsed newStore] ∧
    (record_file_write_states (FileRead.parsed old) newStore)[1]? =
      some FileRead.corrupt ∧
    (∀ s : Store, FileRead.corrupt ≠ FileRead.parsed s) := by
  refine ⟨rfl, rfl, fun s => by simp⟩

/-- Claim C3, counterexample: on the test network with a connected ipfs
client, a failure of the very first naming call propagates out of
_update_ens_content: the closing block is never reached, no ipfs shutdown
call is issued, and the run ends fatally instead of being reported
successful. -/
theorem C3_ens_failure_counterexample :
    (update_ens_content "ropsten" true "h1" (some 0)).cleanupReached = false ∧
    (update_ens_content "ropsten" true "h1" (some 0)).fatal = true ∧
    (update_ens_content "ropsten" true "h1" (some 0)).calls.count
      ChainCall.ipfsShutdown = 0 := by
  refine ⟨rfl, rfl, rfl⟩

/-- Claim C3, amended: a failure at any step of the naming sequence is not
caught at the component boundary: it escapes _update_ens_content as a fatal
error and the ipfs closing block is skipped; the closing block runs only on
runs where the invoked naming sequence completes. -/
theorem C3_ens_failure_skips_cleanup (client : Bool) (hashVal : String) (i : Nat)
    (hi : i < (assign_ens_plan client).length) :
    (update_ens_content "ropsten" client hashVal (some i)).cleanupReached = false ∧
    (update_ens_content "ropsten" client hashVal (some i)).fatal = true ∧
    (update_ens_content "ropsten" client hashVal none).cleanupReached = true ∧
    (update_ens_content "ropsten" client hashVal none).fatal = false := by
  simp [update_ens_content, assign_ens, hi]

/-- Claim C3, witness for the amended theorem: a failure at the second
naming call with no ipfs client, against a completing run. -/
theorem C3_ens_failure_skips_cleanup_witness :
    (update_ens_content "ropsten" false "x" (some 1)).cleanupReached = false ∧
    (update_ens_content "ropsten" false "x" (some 1)).fatal = true ∧
    (update_ens_content "ropsten" false "x" none).cleanupReached = true ∧
    (update_ens_content "ropsten" false "x" none).fatal = false :=
  C3_ens_failure_skips_cleanup false "x" 1 (by decide)

/-- Claim C7: the naming step is a strict no-op (zero registry or resolver
calls) whenever the current chain is not ropsten; on ropsten the completing
sequence issues exactly the planned naming calls, which include
setSubnodeOwner, setResolver, setAddr and setName, and include
setContenthash exactly when the ipfs client is connected. -/
theorem C7_name_binder_gate (chain : String) (client : Bool) (hashVal : String)
    (fi : Option Nat) (hchain : chain ≠ "ropsten") :
    (update_ens_content chain client hashVal fi).calls.filter ChainCall.isEns
      = [] ∧
    (update_ens_content "ropsten" client hashVal none).calls.filter
      ChainCall.isEns = assign_ens_plan client ∧
    ChainCall.ensTransact "setSubnodeOwner" ∈ assign_ens_plan client ∧
    ChainCall.ensTransact "setResolver" ∈ assign_ens_plan client ∧
    ChainCall.ensTransact "setAddr" ∈ assign_ens_plan client ∧
    ChainCall.ensTransact "setName" ∈ assign_ens_plan client ∧
    (ChainCall.ensTransact "setContenthash" ∈ assign_ens_plan client ↔
      client = true) := by
  cases client <;>
    simp [update_ens_content, assign_ens, assign_ens_plan, publish, hchain,
      ChainCall.isEns, List.filter]

/-- Claim C7, witness on a concrete non-test network with a connected
client. -/
theorem C7_name_binder_gate_witness :
    (update_ens_content "mainnet" true "h2" none).calls.filter ChainCall.isEns
      = [] :=
  (C7_name_binder_gate "mainnet" true "h2" none (by decide)).1

/-- Claim C1: the record file is rewritten only after a confirmed receipt
(a write implies broadcast and receipt succeeded), every run that ends
fatally on insufficient balance, compilation, broadcast or receipt failure
leaves the record file unchanged, and whenever the file is written the
deployed contract key holds the complete abi and address pair. -/
theorem C1_record_write_discipline (e : Env) :
    ((do_deploy e).fatal = some DeployError.insufficientBalance ∨
     (do_deploy e).fatal = some DeployError.compileError ∨
     (do_deploy e).fatal = some DeployError.broadcastError ∨
     (do_deploy e).fatal = some DeployError.receiptError →
       (do_deploy e).finalFile = e.recordFile ∧ (do_deploy e).written = none) ∧
    (∀ s : Store, (do_deploy e).written = some s →
       e.broadcastOk = true ∧ e.receiptOk = true ∧
       storeLookup s "blockcertsonchaining" =
         some (ContractRecord.mk e.abi e.contractAddress) ∧
       (do_deploy e).finalFile = FileRead.parsed s) := by
  by_cases h1 : check_balance_aborts e.gasPrice e.balance = true
  · constructor
    · intro _
      exact ⟨by simp [do_deploy, h1], by simp [do_deploy, h1]⟩
    · intro s hs
      simp [do_deploy, h1] at hs
  · by_cases h2 : e.compileOk = false
    · refine ⟨fun _ => ⟨by simp [do_deploy, h1, h2], by simp [do_deploy, h1, h2]⟩,
        fun s hs => ?_⟩
      simp [do_deploy, h1, h2] at hs
    · by_cases h3 : e.broadcastOk = false
      · refine ⟨fun _ => ⟨by simp [do_deploy, h1, h2, h3],
          by simp [do_deploy, h1, h2, h3]⟩, fun s hs => ?_⟩
        simp [do_deploy, h1, h2, h3] at hs
      · by_cases h4 : e.receiptOk = false
        · refine ⟨fun _ => ⟨by simp [do_deploy, h1, h2, h3, h4],
            by simp [do_deploy, h1, h2, h3, h4]⟩, fun s hs => ?_⟩
          simp [do_deploy, h1, h2, h3, h4] at hs
        · cases hupd : recordStoreUpdate e.recordFile e.abi e.contractAddress with
          | error err =>
              refine ⟨fun _ => ⟨by simp [do_deploy, h1, h2, h3, h4, hupd],
                by simp [do_deploy, h1, h2, h3, h4, hupd]⟩, fun s hs => ?_⟩
              simp [do_deploy, h1, h2, h3, h4, hupd] at hs
          | ok newStore =>
              obtain ⟨old, hfile, hstore⟩ :=
                recordStoreUpdate_ok_inv e.recordFile e.abi e.contractAddress
                  newStore hupd
              have hb : e.broadcastOk = true := by
                cases hbo : e.broadcastOk
                · exact absurd hbo h3
                · rfl
              have hr : e.receiptOk = true := by
                cases hro : e.receiptOk
                · exact absurd hro h4
                · rfl
              constructor
              · intro hfatal
                by_cases hf : (update_ens_content e.chain e.ipfsConnects
                    e.ipfsHash e.ensFailIndex).fatal = true
                · simp [do_deploy, h1, h2, h3, h4, hupd, hf] at hfatal
                · simp [do_deploy, h1, h2, h3, h4, hupd, hf] at hfatal
              · intro s hs
                have hws : newStore = s := by
                  simpa [do_deploy, h1, h2, h3, h4, hupd] using hs
                subst hws
                refine ⟨hb, hr, ?_, ?_⟩
                · rw [hstore]
                  exact storeLookup_storeInsert_self old "blockcertsonchaining"
                    (ContractRecord.mk e.abi e.contractAddress)
                · simp [do_deploy, h1, h2, h3, h4, hupd]

/-- Claim C1, witness: a concrete insufficient-balance run leaves the file
unchanged, and a concrete completing run holds the full updated mapping. -/
theorem C1_record_write_discipline_witness :
    (do_deploy envInsufficient).finalFile = envInsufficient.recordFile ∧
    (do_deploy envComplete).finalFile =
      FileRead.parsed [("keep", ContractRecord.mk "p" "0x9"),
        ("blockcertsonchaining", ContractRecord.mk "abi1" "0xABC")] := by
  constructor
  · exact ((C1_record_write_discipline envInsufficient).1 (Or.inl (by decide))).1
  · have h := (C1_record_write_discipline envComplete).2
      [("keep", ContractRecord.mk "p" "0x9"),
       ("blockcertsonchaining", ContractRecord.mk "abi1" "0xABC")] (by decide)
    exact h.2.2.2

/-- Claim C8: the run aborts with the insufficient-balance error exactly
when balance is below the fixed 600000 gas ceiling times the gas price, and
an aborting run has issued only the gas-price read and the balance read,
neither of which mutates the network. -/
theorem C8_balance_guard (e : Env) :
    ((do_deploy e).fatal = some DeployError.insufficientBalance ↔
      e.balance < balance_gas_limit * e.gasPrice) ∧
    (e.balance < balance_gas_limit * e.gasPrice →
      (do_deploy e).calls = [ChainCall.readGasPrice, ChainCall.readBalance] ∧
      ((do_deploy e).calls.all fun c => !ChainCall.isMutating c) = true) := by
  by_cases h1 : check_balance_aborts e.gasPrice e.balance = true
  · have hlt : e.balance < balance_gas_limit * e.gasPrice := by
      simpa [check_balance_aborts] using h1
    refine ⟨by simp [do_deploy, h1, hlt], fun _ => ?_⟩
    constructor
    · simp [do_deploy, h1, check_balance_calls]
    · simp [do_deploy, h1, check_balance_calls, ChainCall.isMutating]
  · have hge : ¬ e.balance < balance_gas_limit * e.gasPrice := by
      simpa [check_balance_aborts] using h1
    refine ⟨?_, fun hlt => absurd hlt hge⟩
    by_cases h2 : e.compileOk = false
    · simp [do_deploy, h1, h2, hge]
    · by_cases h3 : e.broadcastOk = false
      · simp [do_deploy, h1, h2, h3, hge]
      · by_cases h4 : e.receiptOk = false
        · simp [do_deploy, h1, h2, h3, h4, hge]
        · cases hupd : recordStoreUpdate e.recordFile e.abi e.contractAddress with
          | error err =>
              have herr := recordStoreUpdate_error_inv e.recordFile e.abi
                e.contractAddress err hupd
              rcases herr with he | he <;> subst he <;>
                simp [do_deploy, h1, h2, h3, h4, hupd, hge]
          | ok newStore =>
              by_cases hf : (update_ens_content e.chain e.ipfsConnects
                  e.ipfsHash e.ensFailIndex).fatal = true <;>
                simp [do_deploy, h1, h2, h3, h4, hupd, hf, hge]

/-- Claim C8, witness: the concrete insufficient-balance run issues exactly
the two read calls. -/
theorem C8_balance_guard_witness :
    (do_deploy envInsufficient).calls =
      [ChainCall.readGasPrice, ChainCall.readBalance] :=
  ((C8_balance_guard envInsufficient).2 (by decide)).1

end CertDeployer
